import Mathlib

/-!
Verification development for the epever-bridge backend (Fensterkraftwerk).

The definitions below are a shallow embedding of `app/mqtt_service.py` and the
live-read endpoint of `app/main.py`.  Python dictionaries produced by
`json.loads` are modelled by the inductive `Json` type; Python exceptions are
modelled by the `PyErr` type together with `Except`; the `try/except` blocks of
the source are modelled by total functions that return the state accumulated up
to the point where the exception would be raised.  Wall-clock instants are
modelled as integer seconds; `datetime` values additionally carry the
timezone-awareness flag that governs Python's datetime subtraction.
-/

namespace EpeverBridge

/-- A JSON value as returned by `json.loads`: null, booleans, numbers
(modelled as integers), strings, arrays and objects. -/
inductive Json where
  | null : Json
  | bool (b : Bool) : Json
  | num (n : Int) : Json
  | str (s : String) : Json
  | arr (xs : List Json) : Json
  | obj (kvs : List (String × Json)) : Json

/-- The Python exception classes that can arise on the code paths modelled
here. -/
inductive PyErr where
  | jsonDecodeError : PyErr
  | attributeError : PyErr
  | valueError : PyErr
  | typeError : PyErr
  | indexError : PyErr
deriving DecidableEq

/-- Python `d.get(key, default)`: defined on dict values, raises
`AttributeError` on every other receiver. -/
def Json.get (j : Json) (key : String) (default : Json) : Except PyErr Json :=
  match j with
  | .obj kvs => .ok ((kvs.lookup key).getD default)
  | _ => .error .attributeError

/-- Python `d.get(key)` (implicit `None` default). -/
def Json.getd (j : Json) (key : String) : Except PyErr Json :=
  j.get key .null

/-- A Python `datetime`: seconds since the epoch plus the timezone-awareness
flag.  `datetime.utcnow()` yields a naive value (`aware = false`),
`datetime.now(timezone.utc)` an aware one (`aware = true`). -/
structure PyDatetime where
  secs : Int
  aware : Bool
deriving DecidableEq

/-- Python datetime subtraction: defined when both operands agree on
timezone-awareness, otherwise it raises `TypeError` ("can't subtract
offset-naive and offset-aware datetimes"). -/
def dtSub (a b : PyDatetime) : Except PyErr Int :=
  if a.aware = b.aware then .ok (a.secs - b.secs) else .error .typeError

/-- The configuration fields of `app/config.py` consumed by the embedded
code paths (the remaining `Settings` fields are not read by them). -/
structure Settings where
  supabase_url : String
  supabase_key : String
  mqtt_host : String

/-- The mutable live state of `MQTTService`: the last decoded payload and its
receipt timestamp (`last_data` / `last_received`). -/
structure MQTTState where
  last_data : Option Json
  last_received : Option PyDatetime

/-- Observable actions of the message handler: the in-memory cache update and
the HTTP POST of a row to the history store. -/
inductive Event where
  | cacheUpdate (payload : Json) (now : Int) : Event
  | netPost (row : List (String × Json)) : Event

namespace MQTTService

/-- The row dictionary built by `_write_to_supabase` (lines 155-178): the
nested payload flattened into the `power_logs` columns.  Each `.get` raises
`AttributeError` when its receiver is not a dict, exactly as in Python, and
the entries are evaluated in source order. -/
def build_row (data : Json) : Except PyErr (List (String × Json)) := do
  let pv ← data.get "pv" (.obj [])
  let batt ← data.get "battery" (.obj [])
  let load ← data.get "load" (.obj [])
  let energy ← data.get "energy" (.obj [])
  let device_id ← data.get "device_id" (.str "unknown")
  let pv_voltage ← pv.getd "voltage"
  let pv_current ← pv.getd "current"
  let pv_power ← pv.getd "power"
  let batt_voltage ← batt.getd "voltage"
  let batt_charge_current ← batt.getd "charge_current"
  let batt_charge_power ← batt.getd "charge_power"
  let batt_temperature ← batt.getd "temperature"
  let batt_soc ← batt.getd "soc"
  let load_voltage ← load.getd "voltage"
  let load_current ← load.getd "current"
  let load_power ← load.getd "power"
  let load_enabled ← load.getd "enabled"
  let energy_today ← energy.getd "today_kwh"
  let energy_total ← energy.getd "total_kwh"
  let rssi ← data.getd "rssi"
  let uptime ← data.getd "uptime"
  .ok [("device_id", device_id),
       ("pv_voltage", pv_voltage),
       ("pv_current", pv_current),
       ("pv_power", pv_power),
       ("batt_voltage", batt_voltage),
       ("batt_charge_current", batt_charge_current),
       ("batt_charge_power", batt_charge_power),
       ("batt_temperature", batt_temperature),
       ("batt_soc", batt_soc),
       ("load_voltage", load_voltage),
       ("load_current", load_current),
       ("load_power", load_power),
       ("load_enabled", load_enabled),
       ("energy_today", energy_today),
       ("energy_total", energy_total),
       ("rssi", rssi),
       ("uptime", uptime)]

/-- `MQTTService._write_to_supabase` (lines 146-198).  When the store is not
configured it returns immediately (`.ok none`: no network call).  Otherwise it
builds the row (whose `.get` calls may raise) and performs the POST inside a
`try/except` that only logs: the HTTP outcome `post` (an httpx exception or a
status code) never changes the result, so a completed call returns
`.ok (some row)` regardless of `post`. -/
def write_to_supabase (cfg : Settings) (data : Json) (_post : Except Unit Nat) :
    Except PyErr (Option (List (String × Json))) :=
  if cfg.supabase_url = "" ∨ cfg.supabase_key = "" then .ok none
  else do
    let row ← build_row data
    .ok (some row)

/-- The observable events of one `_on_message` pass once the cache has been
written: the cache update always comes first, followed by the POST when
`_write_to_supabase` reached the network call (its row-building exceptions
are caught by the handler's `except` after the cache update). -/
def store_events (w : Except PyErr (Option (List (String × Json))))
    (payload : Json) (now : Int) : List Event :=
  match w with
  | .ok (some row) => [.cacheUpdate payload now, .netPost row]
  | _ => [.cacheUpdate payload now]

/-- `MQTTService._on_message` (lines 119-141).  `parsed` is the outcome of
`json.loads(msg.payload.decode("utf-8"))`.  The whole body runs inside
`try/except`, so the function is total: a `JSONDecodeError` is logged and
dropped; the `payload.get("device_id", "?")` in the log line raises
`AttributeError` for non-dict payloads before any state is written; for dict
payloads the cache fields are assigned and only then `_write_to_supabase`
runs, whose exceptions are caught after the cache update has happened.
Returns the new state together with the trace of observable events. -/
def on_message (cfg : Settings) (st : MQTTState) (now : Int)
    (parsed : Except PyErr Json) (post : Except Unit Nat) :
    MQTTState × List Event :=
  match parsed with
  | .error _ => (st, [])
  | .ok payload =>
    match payload.get "device_id" (.str "?") with
    | .error _ => (st, [])
    | .ok _ =>
      ({ last_data := some payload, last_received := some ⟨now, false⟩ },
       store_events (write_to_supabase cfg payload post) payload now)

end MQTTService

/-- HTTP-level failures of the live endpoint: the 503 "no data yet" response,
or an uncaught Python exception escaping the handler. -/
inductive ReadErr where
  | http503 : ReadErr
  | pyexc (e : PyErr) : ReadErr
deriving DecidableEq

/-- The response body of `GET /api/live`. -/
structure LiveResponse where
  data : Json
  received_at : Option PyDatetime
  age_seconds : Option Int

/-- A stored row of the Supabase table `power_logs`: the columns written by
`_write_to_supabase` plus the store-assigned `created_at` timestamp used as
the query sort and filter key. -/
structure PowerLogRow where
  created_at : Int
  device_id : Json
  pv_voltage : Json
  pv_current : Json
  pv_power : Json
  batt_voltage : Json
  batt_charge_current : Json
  batt_charge_power : Json
  batt_temperature : Json
  batt_soc : Json
  load_voltage : Json
  load_current : Json
  load_power : Json
  load_enabled : Json
  energy_today : Json
  energy_total : Json
  rssi : Json
  uptime : Json

/-- The dashboard projection built by `query_history` (lines 247-260): a row
mapped to exactly the fields `time`, `pv_voltage`, `pv_current`, `pv_power`,
`batt_voltage`, `batt_charge_current`, `batt_soc`, `load_power`,
`energy_today`. -/
structure HistoryPoint where
  time : Int
  pv_voltage : Json
  pv_current : Json
  pv_power : Json
  batt_voltage : Json
  batt_charge_current : Json
  batt_soc : Json
  load_power : Json
  energy_today : Json

/-- The per-row mapping of the dict comprehension in `query_history`. -/
def project (r : PowerLogRow) : HistoryPoint :=
  ⟨r.created_at, r.pv_voltage, r.pv_current, r.pv_power, r.batt_voltage,
   r.batt_charge_current, r.batt_soc, r.load_power, r.energy_today⟩

/-- Digit-string test used by the model of Python `int(str)`. -/
def isDigits (l : List Char) : Bool :=
  !l.isEmpty && l.all (fun c => c.isDigit)

/-- Decimal value of a digit string. -/
def digitsToNat (l : List Char) : Nat :=
  l.foldl (fun a c => a * 10 + (c.toNat - 48)) 0

/-- Python `int(str)`: an optional sign followed by at least one digit, every
other string raising `ValueError`.  (Surrounding whitespace and underscore
separators, which Python also accepts, do not occur in range strings and are
not modelled.) -/
def pyInt (s : String) : Except PyErr Int :=
  match s.data with
  | [] => .error .valueError
  | c :: rest =>
    if c = '-' then
      if isDigits rest then .ok (-(digitsToNat rest : Int)) else .error .valueError
    else if c = '+' then
      if isDigits rest then .ok (digitsToNat rest : Int) else .error .valueError
    else
      if isDigits (c :: rest) then .ok (digitsToNat (c :: rest) : Int)
      else .error .valueError

/-- Python slice `s[1:-1]` (total, never raises). -/
def pyMid (s : String) : String :=
  ⟨(s.data.drop 1).dropLast⟩

/-- Python index `s[-1]`: the last character, `IndexError` on the empty
string. -/
def pyLast (s : String) : Except PyErr Char :=
  match s.data.getLast? with
  | some c => .ok c
  | none => .error .indexError

/-- The `delta_map` dict lookup with default "hours":
`{"h": "hours", "d": "days", "w": "weeks", "m": "days"}.get(unit, "hours")`. -/
def delta_map_get (u : Char) : String :=
  if u = 'h' then "hours" else
  if u = 'd' then "days" else
  if u = 'w' then "weeks" else
  if u = 'm' then "days" else "hours"

/-- Seconds represented by one unit of a `timedelta` keyword argument. -/
def fieldSeconds (f : String) : Int :=
  if f = "hours" then 3600 else
  if f = "days" then 86400 else
  if f = "weeks" then 604800 else 0

/-- The seconds subtracted from `utcnow()` in `query_history` (lines 224-228):
`timedelta(**{delta_map.get(unit, "hours"): amount * multiplier})` with
`multiplier = 30 if unit == "m" else 1`. -/
def deltaSeconds (amount : Int) (u : Char) : Int :=
  amount * (if u = 'm' then 30 else 1) * fieldSeconds (delta_map_get u)

/-- Seconds in one unit as the claim states them: an hour, a day, a week, and
the convenience month defined as exactly 30 days. -/
def unitSeconds (u : Char) : Int :=
  if u = 'h' then 3600 else
  if u = 'd' then 86400 else
  if u = 'w' then 604800 else
  if u = 'm' then 2592000 else 0

/-- Ascending insertion by `created_at` (model of the store's
`order=created_at.asc`). -/
def insertRow (r : PowerLogRow) : List PowerLogRow → List PowerLogRow
  | [] => [r]
  | x :: xs =>
    if r.created_at ≤ x.created_at then r :: x :: xs else x :: insertRow r xs

/-- Sort rows ascending by `created_at`. -/
def sortRows : List PowerLogRow → List PowerLogRow
  | [] => []
  | x :: xs => insertRow x (sortRows xs)

/-- The REST `GET /rest/v1/power_logs` the store answers for the parameters
built by `query_history`: rows with `created_at=gte.since`, sorted
`created_at.asc`, capped at `limit`. -/
def powerLogsGet (table : List PowerLogRow) (since : Int) (limit : Nat) :
    List PowerLogRow :=
  (sortRows (table.filter (fun r => since ≤ r.created_at))).take limit

namespace MQTTService

/-- `MQTTService.query_history` (lines 203-268).  Unconfigured store: `[]`
before any parsing.  Otherwise `amount = int(range_str[1:-1])` — an uncaught
`ValueError` for a non-numeric amount — then `unit = range_str[-1]`, the
lower bound `since = utcnow() - delta`, and the GET inside `try/except`:
`httpOk = true` models a 200 response answered by `table`, `httpOk = false`
models a non-200 status or transport exception, both of which the source
turns into `[]`.  A 200 response is mapped row-wise by `project`. -/
def query_history (cfg : Settings) (now : Int) (table : List PowerLogRow)
    (httpOk : Bool) (range_str : String) (limit : Nat) :
    Except PyErr (List HistoryPoint) :=
  if cfg.supabase_url = "" ∨ cfg.supabase_key = "" then .ok []
  else do
    let amount ← pyInt (pyMid range_str)
    let unit ← pyLast range_str
    let since := now - deltaSeconds amount unit
    if httpOk then .ok ((powerLogsGet table since limit).map project)
    else .ok []

/-- The `MQTTMessageInfo` returned by `client.publish`: the synchronous
return code `rc` and the time (if ever) at which the broker acknowledgment
would arrive. -/
structure PubMsgInfo where
  rc : Nat
  ackAfter : Option Nat

/-- The outcome of `publish_command`: the returned boolean, whether
`client.publish` was invoked at all, and how long the call blocked in
`wait_for_publish`. -/
structure PublishReport where
  success : Bool
  attempted : Bool
  waited : Nat
deriving DecidableEq

/-- `MQTTService.publish_command` (lines 273-297).  Not connected: `False`
without touching the client.  Otherwise `client.publish` runs; on
`rc == MQTT_ERR_SUCCESS` (0), `wait_for_publish(timeout=5)` blocks until the
acknowledgment or for the full 5 seconds — paho returns normally on timeout
and `rc == 0` rules out its ValueError/RuntimeError raises — after which
`True` is returned unconditionally; a non-zero `rc` returns `False`. -/
def publish_command (connected : Bool) (r : PubMsgInfo) : PublishReport :=
  if !connected then ⟨false, false, 0⟩
  else if r.rc = 0 then
    ⟨true, true, match r.ackAfter with | some a => min a 5 | none => 5⟩
  else ⟨false, true, 0⟩

/-- The lifecycle resources of `MQTTService`: the paho network loop thread,
the broker connection, and the persistent httpx client. -/
structure ServiceState where
  loopRunning : Bool
  connected : Bool
  httpClosed : Bool
deriving DecidableEq

/-- The state established by `MQTTService.__init__`. -/
def initServiceState : ServiceState :=
  ⟨false, false, false⟩

/-- `MQTTService.start` (lines 74-92): no-op when `mqtt_host` is empty;
otherwise `connect` + `loop_start`, with a connect exception caught and
logged (leaving the state unchanged). -/
def start (cfg : Settings) (connectOk : Bool) (s : ServiceState) : ServiceState :=
  if cfg.mqtt_host = "" then s
  else if connectOk then { s with connected := true, loopRunning := true }
  else s

/-- `MQTTService.stop` (lines 94-102): `loop_stop`, `disconnect`,
`http.close`, wrapped in `try/except: pass`, so it is total and brings the
service to the fully stopped state from any state. -/
def stop (_s : ServiceState) : ServiceState :=
  ⟨false, false, true⟩

end MQTTService

/-- The shared locations touched by the receive loop and the live-read path,
together with the program counters of one writer pass of `_on_message`
(lines 132-133) and one reader pass of `get_live_data`: `wpc = 0` before
`last_data = payload`, `wpc = 1` between the two assignments, `wpc = 2`
after `last_received = ...`; the reader records the two values it loads. -/
structure RaceState where
  data : Option Json
  received : Option Int
  wpc : Nat
  rdata : Option (Option Json)
  rrec : Option (Option Int)
  rpc : Nat

/-- Interleaved small-step semantics of the two threads: the writer performs
the two field assignments of `_on_message` as separate steps (there is no
lock around them), and the reader loads `last_data` and then
`last_received`. -/
inductive RaceStep (p : Json) (t : Int) : RaceState → RaceState → Prop where
  | wData (s : RaceState) : s.wpc = 0 →
      RaceStep p t s { s with data := some p, wpc := 1 }
  | wTime (s : RaceState) : s.wpc = 1 →
      RaceStep p t s { s with received := some t, wpc := 2 }
  | rData (s : RaceState) : s.rpc = 0 →
      RaceStep p t s { s with rdata := some s.data, rpc := 1 }
  | rTime (s : RaceState) : s.rpc = 1 →
      RaceStep p t s { s with rrec := some s.received, rpc := 2 }

/-- A configured deployment (non-empty Supabase endpoint and key). -/
def cfgOn : Settings :=
  ⟨"https://example.supabase.co", "anon-key", "broker.hivemq.cloud"⟩

/-- A deployment with the history store unconfigured. -/
def cfgOff : Settings :=
  ⟨"", "", "broker.hivemq.cloud"⟩

/-- A concrete stored row used to exercise the history query. -/
def sampleRow : PowerLogRow :=
  ⟨999500, .str "esp32-1", .num 18, .num 2, .num 40, .num 13, .num 3, .null,
   .null, .num 87, .null, .null, .num 5, .bool true, .num 1, .num 10,
   .num (-70), .num 3600⟩

/-- `get_live_data` of `app/main.py` (lines 175-201): 503 when no data has
been received; otherwise the response dict is built, whose `age_seconds`
entry subtracts `last_received` from the aware `datetime.now(timezone.utc)`
(here `⟨reqNow, true⟩`).  An exception in that subtraction escapes the
handler. -/
def get_live_data (st : MQTTState) (reqNow : Int) : Except ReadErr LiveResponse :=
  match st.last_data with
  | none => .error .http503
  | some d =>
    match st.last_received with
    | none => .ok ⟨d, none, none⟩
    | some ts =>
      match dtSub ⟨reqNow, true⟩ ts with
      | .error e => .error (.pyexc e)
      | .ok age => .ok ⟨d, some ts, some age⟩

/-! ## Theorems -/

/-- Whatever `_write_to_supabase` did, the event trace of a handled dict
payload starts with the cache update. -/
theorem store_events_head (w : Except PyErr (Option (List (String × Json))))
    (payload : Json) (now : Int) :
    (MQTTService.store_events w payload now).head? =
      some (.cacheUpdate payload now) := by
  rcases w with e | o
  · rfl
  · rcases o with _ | row <;> rfl

/-- Python slicing on a range string of shape `-N<unit>`: `[1:-1]` yields the
amount digits. -/
theorem pyMid_dash (ds : List Char) (u : Char) :
    pyMid ⟨'-' :: (ds ++ [u])⟩ = ⟨ds⟩ := by
  simp [pyMid]

/-- Python `[-1]` on a range string of shape `-N<unit>` yields the unit
character. -/
theorem pyLast_dash (ds : List Char) (u : Char) :
    pyLast ⟨'-' :: (ds ++ [u])⟩ = .ok u := by
  unfold pyLast
  have hg : ∀ (l : List Char) (b : Char),
      ((b :: (l ++ [u])) : List Char).getLast? = some u := by
    intro l
    induction l with
    | nil => intro b; rfl
    | cons c cs ih => intro b; simpa using ih c
  simp [hg ds '-']

/-- `int` on a pure digit string succeeds with its decimal value. -/
theorem pyInt_digits (ds : List Char) (h : isDigits ds = true) :
    pyInt ⟨ds⟩ = .ok (digitsToNat ds : Int) := by
  cases ds with
  | nil => simp [isDigits] at h
  | cons c rest =>
    have hc : c.isDigit = true := by
      have h2 := h
      simp [isDigits] at h2
      exact h2.1
    have h1 : c ≠ '-' := by
      intro he
      rw [he] at hc
      exact absurd hc (by decide)
    have h2 : c ≠ '+' := by
      intro he
      rw [he] at hc
      exact absurd hc (by decide)
    simp [pyInt, h1, h2, h]

/-- Evaluation of `query_history` on a configured store and a well-formed
amount: the lower bound is `now` minus the parsed delta, and a 200 response
is the filtered, sorted, capped table mapped through `project`. -/
theorem query_history_eval (cfg : Settings) (now : Int)
    (table : List PowerLogRow) (httpOk : Bool) (limit : Nat)
    (ds : List Char) (u : Char)
    (hcfg : ¬(cfg.supabase_url = "" ∨ cfg.supabase_key = ""))
    (hds : isDigits ds = true) :
    MQTTService.query_history cfg now table httpOk ⟨'-' :: (ds ++ [u])⟩ limit =
      .ok (if httpOk
           then (powerLogsGet table
                   (now - deltaSeconds (digitsToNat ds : Int) u) limit).map
                  project
           else []) := by
  unfold MQTTService.query_history
  rw [if_neg hcfg, pyMid_dash, pyInt_digits ds hds, pyLast_dash]
  cases httpOk <;> rfl

/-- Rows kept by `insertRow` are the inserted row and the old rows. -/
theorem mem_insertRow (r x : PowerLogRow) (l : List PowerLogRow) :
    x ∈ insertRow r l ↔ x = r ∨ x ∈ l := by
  induction l with
  | nil => simp [insertRow]
  | cons y ys ih =>
    by_cases hle : r.created_at ≤ y.created_at
    · simp [insertRow, hle]
    · simp [insertRow, hle, ih]
      tauto

/-- `sortRows` keeps exactly the rows of its input. -/
theorem mem_sortRows (x : PowerLogRow) (l : List PowerLogRow) :
    x ∈ sortRows l ↔ x ∈ l := by
  induction l with
  | nil => simp [sortRows]
  | cons y ys ih => simp [sortRows, mem_insertRow, ih]

/-- `insertRow` preserves ascending order by `created_at`. -/
theorem pairwise_insertRow (r : PowerLogRow) (l : List PowerLogRow)
    (h : l.Pairwise (fun a b => a.created_at ≤ b.created_at)) :
    (insertRow r l).Pairwise (fun a b => a.created_at ≤ b.created_at) := by
  induction l with
  | nil => simp [insertRow]
  | cons y ys ih =>
    rcases List.pairwise_cons.mp h with ⟨hy, hys⟩
    by_cases hle : r.created_at ≤ y.created_at
    · rw [insertRow, if_pos hle]
      refine List.Pairwise.cons ?_ h
      intro z hz
      rcases List.mem_cons.mp hz with rfl | hz
      · exact hle
      · exact le_trans hle (hy z hz)
    · rw [insertRow, if_neg hle]
      refine List.Pairwise.cons ?_ (ih hys)
      intro z hz
      rcases (mem_insertRow r z ys).mp hz with rfl | hz
      · exact le_of_not_le hle
      · exact hy z hz

/-- `sortRows` produces rows ascending by `created_at`. -/
theorem pairwise_sortRows (l : List PowerLogRow) :
    (sortRows l).Pairwise (fun a b => a.created_at ≤ b.created_at) := by
  induction l with
  | nil => simp [sortRows]
  | cons y ys ih => exact pairwise_insertRow y (sortRows ys) ih

/-- Every row served by the store model satisfies the lower bound. -/
theorem powerLogsGet_bound (table : List PowerLogRow) (since : Int)
    (limit : Nat) (r : PowerLogRow) (h : r ∈ powerLogsGet table since limit) :
    since ≤ r.created_at := by
  have h2 := List.mem_of_mem_take h
  rw [mem_sortRows] at h2
  rcases List.mem_filter.mp h2 with ⟨_, hd⟩
  exact of_decide_eq_true hd

/-- Claim C1 (corrected).  Full characterisation of the state effect of
`_on_message`: a payload that fails JSON decoding, or decodes to a non-object
(on which the `payload.get` of the log line raises `AttributeError` before
any assignment), leaves `last_data` and `last_received` exactly as they were;
but every payload that decodes to a JSON object — regardless of the types of
its fields — overwrites both.  No exception escapes the handler: the
function is total on all five payload shapes and both decode outcomes. -/
theorem C1_amended_thm (cfg : Settings) (st : MQTTState) (now : Int)
    (pr : Except PyErr Json) (post : Except Unit Nat) :
    (MQTTService.on_message cfg st now pr post).1 =
      (match pr with
       | .ok (.obj kvs) =>
         { last_data := some (.obj kvs), last_received := some ⟨now, false⟩ }
       | _ => st) := by
  rcases pr with e | j
  · rfl
  · cases j <;> rfl

/-- Claim C1, counterexample to the original statement: the payload
`{"pv": 5}` is valid JSON whose `pv` field has the wrong type (the spec's
Reading requires a nested object), so per the claim it "fails to decode as a
valid Reading" and must leave the live state untouched — yet the handler
overwrites `last_data` with it, because the code validates nothing beyond
`json.loads`. -/
theorem C1_counterexample :
    (MQTTService.on_message cfgOn ⟨none, none⟩ 7
        (.ok (.obj [("pv", .num 5)])) (.ok 201)).1 ≠
      (⟨none, none⟩ : MQTTState) := by
  intro h
  exact Option.noConfusion (congrArg MQTTState.last_data h)

/-- Claim C2 (corrected).  For every payload that decodes to a JSON object,
the cache is set to exactly that payload and the (naive-utcnow) receipt
timestamp, the cache update is the first observable event — before any store
write — and it happens for every store outcome `post`; but the subsequent
live read does not return the payload: it raises `TypeError`, because the
aware request-time `datetime.now(timezone.utc)` cannot be subtracted from
the naive stored timestamp. -/
theorem C2_amended_thm (cfg : Settings) (st : MQTTState) (now : Int)
    (kvs : List (String × Json)) (post : Except Unit Nat) (reqNow : Int) :
    (MQTTService.on_message cfg st now (.ok (.obj kvs)) post).1.last_data =
        some (.obj kvs) ∧
    (MQTTService.on_message cfg st now (.ok (.obj kvs)) post).1.last_received =
        some ⟨now, false⟩ ∧
    (MQTTService.on_message cfg st now (.ok (.obj kvs)) post).2.head? =
        some (.cacheUpdate (.obj kvs) now) ∧
    get_live_data (MQTTService.on_message cfg st now (.ok (.obj kvs)) post).1
        reqNow = .error (.pyexc .typeError) := by
  refine ⟨rfl, rfl, ?_, rfl⟩
  exact store_events_head _ _ _

/-- Claim C2, counterexample to the original statement: `5` is a valid JSON
payload, yet the handler leaves the cache empty (the `payload.get` log line
raises `AttributeError` first); and even after a well-formed object payload,
the live read does not return the reading — it fails with `TypeError`
instead of producing a response. -/
theorem C2_counterexample :
    (MQTTService.on_message cfgOn ⟨none, none⟩ 7
        (.ok (.num 5)) (.ok 201)).1.last_data = none ∧
    get_live_data
        (MQTTService.on_message cfgOn ⟨none, none⟩ 7
           (.ok (.obj [("device_id", .str "esp32-1")])) (.ok 201)).1 99 =
      .error (.pyexc .typeError) :=
  ⟨rfl, rfl⟩

/-- Claim C5 (code bug).  After any received message, `last_received` holds
the timezone-naive `datetime.utcnow()`, and the live read subtracts it from
the timezone-aware `datetime.now(timezone.utc)`: in Python that subtraction
raises `TypeError`, so `get_live_data` fails with an escaping exception
whenever data is present — evaluated here at a concrete message received at
1000 and read at 2000. -/
theorem C5_code_bug_thm :
    (MQTTService.on_message cfgOn ⟨none, none⟩ 1000
        (.ok (.obj [("pv", .obj [("power", .num 40)])])) (.ok 201)).1.last_received
        = some ⟨1000, false⟩ ∧
    get_live_data
        (MQTTService.on_message cfgOn ⟨none, none⟩ 1000
           (.ok (.obj [("pv", .obj [("power", .num 40)])])) (.ok 201)).1 2000 =
      .error (.pyexc .typeError) :=
  ⟨rfl, rfl⟩

/-- Claim C3 (corrected).  On a configured store, `query_history` neither
raises a typed, caught ValidationError nor keeps exceptions inside the
component: a non-numeric amount makes the uncaught `ValueError` of
`int(range_str[1:-1])` escape the call (the `try` only wraps the HTTP GET),
and an unknown unit character is silently mapped to "hours" by
`delta_map.get(unit, "hours")`, so the query behaves exactly as if the unit
had been `h`. -/
theorem C3_amended_thm (cfg : Settings) (now : Int) (table : List PowerLogRow)
    (httpOk : Bool) (limit : Nat) (s : String)
    (hu : cfg.supabase_url ≠ "") (hk : cfg.supabase_key ≠ "") :
    (pyInt (pyMid s) = .error .valueError →
       MQTTService.query_history cfg now table httpOk s limit =
         .error .valueError) ∧
    (∀ ds u, s = ⟨'-' :: (ds ++ [u])⟩ → isDigits ds = true →
       u ≠ 'h' → u ≠ 'd' → u ≠ 'w' → u ≠ 'm' →
       MQTTService.query_history cfg now table httpOk s limit =
         MQTTService.query_history cfg now table httpOk
           ⟨'-' :: (ds ++ ['h'])⟩ limit) := by
  have hcfg : ¬(cfg.supabase_url = "" ∨ cfg.supabase_key = "") := by
    rintro (h | h)
    · exact hu h
    · exact hk h
  constructor
  · intro hpe
    unfold MQTTService.query_history
    rw [if_neg hcfg, hpe]
    rfl
  · rintro ds u rfl hds h1 h2 h3 h4
    rw [query_history_eval cfg now table httpOk limit ds u hcfg hds,
        query_history_eval cfg now table httpOk limit ds 'h' hcfg hds]
    have hd : deltaSeconds (digitsToNat ds : Int) u =
        deltaSeconds (digitsToNat ds : Int) 'h' := by
      simp [deltaSeconds, delta_map_get, h1, h2, h3, h4]
    rw [hd]

/-- Claim C3, witness: on the configured deployment, the non-numeric amount
`-xh` escapes as a `ValueError` and the unknown unit `-5q` is answered as if
it were `-5h`. -/
theorem C3_witness :
    (cfgOn.supabase_url ≠ "") ∧ (cfgOn.supabase_key ≠ "") ∧
    (pyInt (pyMid "-xh") = .error .valueError) ∧
    (isDigits ['5'] = true) ∧
    MQTTService.query_history cfgOn 0 [sampleRow] true "-xh" 500 =
      .error .valueError ∧
    MQTTService.query_history cfgOn 0 [sampleRow] true "-5q" 500 =
      MQTTService.query_history cfgOn 0 [sampleRow] true
        ⟨'-' :: (['5'] ++ ['h'])⟩ 500 :=
  ⟨by decide, by decide, rfl, rfl,
   (C3_amended_thm cfgOn 0 [sampleRow] true 500 "-xh" (by decide)
       (by decide)).1 rfl,
   (C3_amended_thm cfgOn 0 [sampleRow] true 500 "-5q" (by decide)
       (by decide)).2 ['5'] 'q' rfl rfl (by decide) (by decide) (by decide)
     (by decide)⟩

/-- Claim C3, counterexample to the original statement: `query_history` on
the malformed range `-xh` fails with a raw, uncaught `ValueError` (not a
typed, caught ValidationError), and on the unknown unit `-5q` it does not
fail at all — it silently defaults the unit to hours and returns a result. -/
theorem C3_counterexample :
    MQTTService.query_history cfgOn 0 [] true "-xh" 500 = .error .valueError ∧
    MQTTService.query_history cfgOn 0 [] true "-5q" 500 = .ok [] :=
  ⟨rfl, rfl⟩

/-- Claim C7 (confirmed).  For a well-formed range `-N<unit>` with unit `h`,
`d`, `w` or `m` on a configured store, `query_history` computes the lower
bound `now − N` hours, days, weeks, or exactly `N·30` days respectively, and
a 200 response yields precisely the rows with `created_at ≥` that bound in
ascending `created_at` order capped at `limit` (the endpoint passes 500 by
default), each projected by `project` to exactly the nine dashboard fields
of `HistoryPoint`; every returned point carries a time at or above the
bound, the sequence is ascending, and its length never exceeds `limit`. -/
theorem C7_thm (cfg : Settings) (now : Int) (table : List PowerLogRow)
    (limit : Nat) (ds : List Char) (u : Char)
    (hu : cfg.supabase_url ≠ "") (hk : cfg.supabase_key ≠ "")
    (hds : isDigits ds = true)
    (hunit : u = 'h' ∨ u = 'd' ∨ u = 'w' ∨ u = 'm') :
    MQTTService.query_history cfg now table true ⟨'-' :: (ds ++ [u])⟩ limit =
      .ok ((powerLogsGet table
             (now - (digitsToNat ds : Int) * unitSeconds u) limit).map
            project) ∧
    (∀ p ∈ (powerLogsGet table
             (now - (digitsToNat ds : Int) * unitSeconds u) limit).map project,
       now - (digitsToNat ds : Int) * unitSeconds u ≤ p.time) ∧
    List.Pairwise (fun a b => a.time ≤ b.time)
      ((powerLogsGet table
         (now - (digitsToNat ds : Int) * unitSeconds u) limit).map project) ∧
    ((powerLogsGet table
       (now - (digitsToNat ds : Int) * unitSeconds u) limit).map
      project).length ≤ limit := by
  have hcfg : ¬(cfg.supabase_url = "" ∨ cfg.supabase_key = "") := by
    rintro (h | h)
    · exact hu h
    · exact hk h
  have hdelta : deltaSeconds (digitsToNat ds : Int) u =
      (digitsToNat ds : Int) * unitSeconds u := by
    rcases hunit with rfl | rfl | rfl | rfl
    · simp [deltaSeconds, delta_map_get, fieldSeconds, unitSeconds]
    · simp [deltaSeconds, delta_map_get, fieldSeconds, unitSeconds]
    · simp [deltaSeconds, delta_map_get, fieldSeconds, unitSeconds]
    · simp [deltaSeconds, delta_map_get, fieldSeconds, unitSeconds]
      ring
  refine ⟨?_, ?_, ?_, ?_⟩
  · rw [query_history_eval cfg now table true limit ds u hcfg hds, hdelta]
    rfl
  · intro p hp
    rcases List.mem_map.mp hp with ⟨r, hr, rfl⟩
    exact powerLogsGet_bound table _ limit r hr
  · rw [List.pairwise_map]
    exact (pairwise_sortRows _).sublist (List.take_sublist _ _)
  · rw [List.length_map]
    exact List.length_take_le _ _

/-- Claim C7, witness: the query `-24h` at time 1000000 on a one-row table
whose row lies inside the window returns exactly its projection, in bounds,
ascending, within the cap. -/
theorem C7_witness :
    (cfgOn.supabase_url ≠ "") ∧ (cfgOn.supabase_key ≠ "") ∧
    (isDigits ['2', '4'] = true) ∧
    MQTTService.query_history cfgOn 1000000 [sampleRow] true "-24h" 500 =
      .ok [project sampleRow] ∧
    (∀ p ∈ (powerLogsGet [sampleRow]
             (1000000 - (digitsToNat ['2', '4'] : Int) * unitSeconds 'h')
             500).map project,
       1000000 - (digitsToNat ['2', '4'] : Int) * unitSeconds 'h' ≤ p.time) ∧
    ((powerLogsGet [sampleRow]
       (1000000 - (digitsToNat ['2', '4'] : Int) * unitSeconds 'h') 500).map
      project).length ≤ 500 := by
  have h := C7_thm cfgOn 1000000 [sampleRow] 500 ['2', '4'] 'h' (by decide)
    (by decide) (by decide) (Or.inl rfl)
  refine ⟨by decide, by decide, by decide, ?_, h.2.1, h.2.2.2⟩
  have h1 := h.1
  rw [show ((⟨'-' :: (['2', '4'] ++ ['h'])⟩ : String) = "-24h") from rfl] at h1
  rw [h1]
  rfl

/-- Claim C4 (corrected).  `publish_command` blocks in `wait_for_publish` for
at most the 5-unit timeout, but when the transport accepted the publish
(`rc = 0`) it returns success unconditionally — paho's `wait_for_publish`
returns silently on timeout and the code never checks `is_published` — so a
missing acknowledgment is reported as success, not as failure; only a
non-zero publish return code is reported as failure. -/
theorem C4_amended_thm (c : Bool) (r : MQTTService.PubMsgInfo) :
    (MQTTService.publish_command c r).waited ≤ 5 ∧
    (c = true → r.rc = 0 →
      (MQTTService.publish_command c r).success = true) ∧
    (c = true → r.rc ≠ 0 →
      (MQTTService.publish_command c r).success = false) := by
  cases c with
  | false =>
    refine ⟨Nat.zero_le 5, ?_, ?_⟩ <;> intro h <;> exact absurd h (by decide)
  | true =>
    by_cases h0 : r.rc = 0
    · refine ⟨?_, fun _ _ => ?_, fun _ hne => absurd h0 hne⟩
      · simp only [MQTTService.publish_command, h0]
        rcases r.ackAfter with _ | a <;> simp
      · simp [MQTTService.publish_command, h0]
    · refine ⟨?_, fun _ he => absurd he h0, fun _ _ => ?_⟩ <;>
        simp [MQTTService.publish_command, h0]

/-- Claim C4, witness: with the broker connected, an accepted publish whose
acknowledgment arrives after 2 units blocks within the bound and reports
success. -/
theorem C4_witness :
    (true = true) ∧ ((0 : Nat) = 0) ∧
    (MQTTService.publish_command true ⟨0, some 2⟩).waited ≤ 5 ∧
    (MQTTService.publish_command true ⟨0, some 2⟩).success = true :=
  ⟨rfl, rfl, (C4_amended_thm true ⟨0, some 2⟩).1,
   (C4_amended_thm true ⟨0, some 2⟩).2.1 rfl rfl⟩

/-- Claim C4, counterexample to the original statement: the transport accepts
the publish (`rc = 0`) while connected but the acknowledgment never arrives;
the call waits the full 5-unit timeout and then reports success — the claim
requires it to report failure, never success. -/
theorem C4_counterexample :
    MQTTService.publish_command true ⟨0, none⟩ =
      ⟨true, true, 5⟩ :=
  rfl

/-- Claim C6 (confirmed).  With an empty store endpoint URL or an empty key,
`_write_to_supabase` returns before building the row or touching the network
(a no-op success, `.ok none`), `query_history` returns the empty list before
even parsing the range string — for every payload, range string, table and
HTTP outcome — and consequently no `netPost` event ever appears in a message
handler trace. -/
theorem C6_thm (cfg : Settings)
    (h : cfg.supabase_url = "" ∨ cfg.supabase_key = "") :
    (∀ data post, MQTTService.write_to_supabase cfg data post = .ok none) ∧
    (∀ now table httpOk s limit,
       MQTTService.query_history cfg now table httpOk s limit = .ok []) ∧
    (∀ st now parsed post row,
       Event.netPost row ∉ (MQTTService.on_message cfg st now parsed post).2) := by
  have hw : ∀ data post, MQTTService.write_to_supabase cfg data post = .ok none := by
    intro data post
    unfold MQTTService.write_to_supabase
    rw [if_pos h]
  refine ⟨hw, ?_, ?_⟩
  · intro now table httpOk s limit
    unfold MQTTService.query_history
    rw [if_pos h]
  · intro st now parsed post row
    rcases parsed with e | j
    · simp [MQTTService.on_message]
    · rcases j with _ | b | n | s2 | xs | kvs <;>
        simp [MQTTService.on_message, Json.get, MQTTService.store_events, hw]

/-- Claim C6, witness: with the unconfigured deployment `cfgOff`, the append
is a no-op success, a query returns the empty sequence, and a handled
message produces no network event. -/
theorem C6_witness :
    (cfgOff.supabase_url = "" ∨ cfgOff.supabase_key = "") ∧
    MQTTService.write_to_supabase cfgOff (.num 5) (.ok 200) = .ok none ∧
    MQTTService.query_history cfgOff 0 [] true "-1h" 500 = .ok [] ∧
    Event.netPost [] ∉
      (MQTTService.on_message cfgOff ⟨none, none⟩ 0 (.ok (.obj []))
        (.ok 200)).2 :=
  ⟨Or.inl rfl,
   (C6_thm cfgOff (Or.inl rfl)).1 (.num 5) (.ok 200),
   (C6_thm cfgOff (Or.inl rfl)).2.1 0 [] true "-1h" 500,
   (C6_thm cfgOff (Or.inl rfl)).2.2 ⟨none, none⟩ 0 (.ok (.obj [])) (.ok 200) []⟩

/-- Claim C8 (confirmed).  When the connection manager reports not connected,
`publish_command` returns failure immediately: `client.publish` is never
invoked (nothing is sent, queued or buffered) and the call blocks for zero
time — in particular no longer than the 5-unit publish timeout. -/
theorem C8_thm (r : MQTTService.PubMsgInfo) :
    MQTTService.publish_command false r = ⟨false, false, 0⟩ :=
  rfl

/-- Claim C9 (confirmed).  `stop` is total (the whole body is wrapped in
`try/except: pass`) and idempotent: a second `stop` changes nothing, and
`stop` on a service that was never started yields exactly the same stopped
state as `stop` after `start`, for every configuration and connect
outcome. -/
theorem C9_thm (s : MQTTService.ServiceState) (cfg : Settings)
    (connectOk : Bool) :
    MQTTService.stop (MQTTService.stop s) = MQTTService.stop s ∧
    MQTTService.stop MQTTService.initServiceState =
      MQTTService.stop (MQTTService.start cfg connectOk
        MQTTService.initServiceState) ∧
    MQTTService.stop s = ⟨false, false, true⟩ :=
  ⟨rfl, rfl, rfl⟩

/-- Claim C10 (corrected).  Whole-value invariant of the interleaved
semantics: from any initial state, in every reachable state the reader's
loaded Reading is the old payload or the new payload in its entirety (and
likewise for the timestamp) — the receive loop replaces each field by a
whole reference, so no partially constructed Reading is ever observed.  The
pair, however, is not replaced atomically (see the counterexample). -/
theorem C10_amended_thm (p : Json) (t : Int) (d0 : Option Json)
    (r0 : Option Int) (s : RaceState)
    (h : Relation.ReflTransGen (RaceStep p t) ⟨d0, r0, 0, none, none, 0⟩ s) :
    (s.data = d0 ∨ s.data = some p) ∧
    (s.received = r0 ∨ s.received = some t) ∧
    (s.rdata = none ∨ s.rdata = some d0 ∨ s.rdata = some (some p)) ∧
    (s.rrec = none ∨ s.rrec = some r0 ∨ s.rrec = some (some t)) := by
  induction h with
  | refl => exact ⟨Or.inl rfl, Or.inl rfl, Or.inl rfl, Or.inl rfl⟩
  | tail hab hbc ih =>
    rcases ih with ⟨ih1, ih2, ih3, ih4⟩
    cases hbc with
    | wData hb => exact ⟨Or.inr rfl, ih2, ih3, ih4⟩
    | wTime hb => exact ⟨ih1, Or.inr rfl, ih3, ih4⟩
    | rData hb =>
      refine ⟨ih1, ih2, ?_, ih4⟩
      rcases ih1 with h1 | h1
      · exact Or.inr (Or.inl (by rw [h1]))
      · exact Or.inr (Or.inr (by rw [h1]))
    | rTime hb =>
      refine ⟨ih1, ih2, ih3, ?_⟩
      rcases ih2 with h2 | h2
      · exact Or.inr (Or.inl (by rw [h2]))
      · exact Or.inr (Or.inr (by rw [h2]))

/-- Claim C10, witness: after the single writer step from an empty initial
state, the shared Reading slot holds the whole new payload. -/
theorem C10_witness :
    Relation.ReflTransGen (RaceStep Json.null 0)
      ⟨none, none, 0, none, none, 0⟩
      ⟨some Json.null, none, 1, none, none, 0⟩ ∧
    ((⟨some Json.null, none, 1, none, none, 0⟩ : RaceState).data = none ∨
     (⟨some Json.null, none, 1, none, none, 0⟩ : RaceState).data =
       some Json.null) :=
  ⟨Relation.ReflTransGen.single (.wData _ rfl),
   (C10_amended_thm Json.null 0 none none _
      (Relation.ReflTransGen.single (.wData _ rfl))).1⟩

/-- Claim C10, counterexample to the original statement: the two assignments
of `_on_message` are separate steps with no lock, so the interleaving
writer-data / reader-data / reader-time lets the reader observe the pair
(new Reading `num 1`, old timestamp `100`) — a pair that never existed
atomically, since it is neither the old pair (`num 0`, `100`) nor the new
pair (`num 1`, `200`): the Reading-plus-timestamp pair is not replaced
atomically. -/
theorem C10_counterexample :
    RaceStep (.num 1) 200 ⟨some (.num 0), some 100, 0, none, none, 0⟩
      ⟨some (.num 1), some 100, 1, none, none, 0⟩ ∧
    RaceStep (.num 1) 200 ⟨some (.num 1), some 100, 1, none, none, 0⟩
      ⟨some (.num 1), some 100, 1, some (some (.num 1)), none, 1⟩ ∧
    RaceStep (.num 1) 200
      ⟨some (.num 1), some 100, 1, some (some (.num 1)), none, 1⟩
      ⟨some (.num 1), some 100, 1, some (some (.num 1)), some (some 100), 2⟩ ∧
    Json.num 1 ≠ Json.num 0 ∧ (100 : Int) ≠ 200 :=
  ⟨.wData _ rfl, .rData _ rfl, .rTime _ rfl,
   fun h => by injection h with h2; exact absurd h2 (by decide),
   by decide⟩

end EpeverBridge
